import Mathlib

/-!
Verification of the statsd client metric/error data model and sink pipeline.

The Rust source (src/src/types.rs, src/cadence/src/sinks/core.rs) is embedded
shallowly: each metric type is a structure holding its formatted string
representation, errors are a tagged representation, and sinks are modelled as
explicit state-passing functions.
-/

/-- Shallow model of `std::io::Error` (external standard library type): an
error kind together with the descriptive message it was created with.
`io::Error::new(kind, msg)` yields an error whose `description()` and
`Display` output are exactly `msg`. -/
inductive IoErrorKind where
  | BrokenPipe
  | PermissionDenied
  | TimedOut
  | Other
  deriving DecidableEq

structure IoError where
  ekind : IoErrorKind
  msg : String
  deriving DecidableEq

/-- `std::io::Error::description()` for errors built from a message. -/
def IoError.description (e : IoError) : String := e.msg

/-- `Display` formatting of a `std::io::Error` built from a message. -/
def IoError.displayFmt (e : IoError) : String := e.msg

/-- Modelled from the spec: the repository's `builder::MetricFormatter`
(builder.rs) is referenced by src/src/types.rs but its source is not under
src/.  Per spec section 3 and 6, the canonical wire form it produces is the
prefix and key joined by a literal period, then a colon, the value, a pipe
and the kind's wire suffix. -/
structure MetricFormatter where
  pre : String
  key : String
  val : String
  suffix : String

def MetricFormatter.counter (pre key : String) (count : Int) : MetricFormatter :=
  MetricFormatter.mk pre key (toString count) "c"

def MetricFormatter.timer (pre key : String) (time : Nat) : MetricFormatter :=
  MetricFormatter.mk pre key (toString time) "ms"

def MetricFormatter.gauge (pre key : String) (value : Nat) : MetricFormatter :=
  MetricFormatter.mk pre key (toString value) "g"

def MetricFormatter.meter (pre key : String) (value : Nat) : MetricFormatter :=
  MetricFormatter.mk pre key (toString value) "m"

def MetricFormatter.histogram (pre key : String) (value : Nat) : MetricFormatter :=
  MetricFormatter.mk pre key (toString value) "h"

/-- Modelled from the spec: `MetricFormatter::build` assembles the canonical
line "prefix.key:value|suffix". -/
def MetricFormatter.buildStr (f : MetricFormatter) : String :=
  f.pre ++ "." ++ f.key ++ ":" ++ f.val ++ "|" ++ f.suffix

/-- `Counter` from src/src/types.rs: holds only its formatted representation. -/
structure Counter where
  repr : String
  deriving DecidableEq

/-- `impl From<String> for Counter`. -/
def Counter.fromString (s : String) : Counter := Counter.mk s

/-- `Counter::new` (src/src/types.rs lines 33-37): formats via
`MetricFormatter::counter(prefix, key, count).build()`. -/
def Counter.new (pre key : String) (count : Int) : Counter :=
  Counter.fromString (MetricFormatter.counter pre key count).buildStr

/-- `Metric::as_metric_str` for `Counter`. -/
def Counter.as_metric_str (c : Counter) : String := c.repr

/-- `Timer` from src/src/types.rs. -/
structure Timer where
  repr : String
  deriving DecidableEq

def Timer.fromString (s : String) : Timer := Timer.mk s

def Timer.new (pre key : String) (time : Nat) : Timer :=
  Timer.fromString (MetricFormatter.timer pre key time).buildStr

def Timer.as_metric_str (t : Timer) : String := t.repr

/-- `Gauge` from src/src/types.rs. -/
structure Gauge where
  repr : String
  deriving DecidableEq

def Gauge.fromString (s : String) : Gauge := Gauge.mk s

def Gauge.new (pre key : String) (value : Nat) : Gauge :=
  Gauge.fromString (MetricFormatter.gauge pre key value).buildStr

def Gauge.as_metric_str (g : Gauge) : String := g.repr

/-- `Meter` from src/src/types.rs. -/
structure Meter where
  repr : String
  deriving DecidableEq

def Meter.fromString (s : String) : Meter := Meter.mk s

def Meter.new (pre key : String) (value : Nat) : Meter :=
  Meter.fromString (MetricFormatter.meter pre key value).buildStr

def Meter.as_metric_str (m : Meter) : String := m.repr

/-- `Histogram` from src/src/types.rs. -/
structure Histogram where
  repr : String
  deriving DecidableEq

def Histogram.fromString (s : String) : Histogram := Histogram.mk s

def Histogram.new (pre key : String) (value : Nat) : Histogram :=
  Histogram.fromString (MetricFormatter.histogram pre key value).buildStr

def Histogram.as_metric_str (h : Histogram) : String := h.repr

/-- `ErrorKind` from src/src/types.rs lines 162-166. -/
inductive ErrorKind where
  | InvalidInput
  | IoError
  deriving DecidableEq

/-- `ErrorRepr` from src/src/types.rs lines 175-179: either a kind and a
static description, or a wrapped `std::io::Error`. -/
inductive ErrorRepr where
  | WithDescription (kind : ErrorKind) (desc : String)
  | IoError (err : IoError)
  deriving DecidableEq

/-- `MetricError` from src/src/types.rs lines 170-173. -/
structure MetricError where
  repr : ErrorRepr
  deriving DecidableEq

/-- `MetricError::kind` (src/src/types.rs lines 181-189). -/
def MetricError.kind (e : MetricError) : ErrorKind :=
  match e.repr with
  | ErrorRepr.IoError _ => ErrorKind.IoError
  | ErrorRepr.WithDescription k _ => k

/-- `MetricError::kind` as a `&self` method call: it reads the receiver and
returns the kind, leaving the receiver unchanged. -/
def MetricError.kindCall (e : MetricError) : ErrorKind × MetricError :=
  (e.kind, e)

/-- `impl Display for MetricError` (src/src/types.rs lines 191-198):
delegates to the wrapped error's `Display` or prints the description. -/
def MetricError.displayFmt (e : MetricError) : String :=
  match e.repr with
  | ErrorRepr.IoError err => err.displayFmt
  | ErrorRepr.WithDescription _ desc => desc

/-- `Error::description` for `MetricError` (src/src/types.rs lines 200-206). -/
def MetricError.description (e : MetricError) : String :=
  match e.repr with
  | ErrorRepr.IoError err => err.description
  | ErrorRepr.WithDescription _ desc => desc

/-- `Error::cause` for `MetricError` (src/src/types.rs lines 208-213):
`Some` exactly for the wrapped-io-error representation. -/
def MetricError.cause (e : MetricError) : Option IoError :=
  match e.repr with
  | ErrorRepr.IoError err => some err
  | ErrorRepr.WithDescription _ _ => none

/-- `impl From<io::Error> for MetricError` (src/src/types.rs lines 216-222). -/
def MetricError.fromIoError (err : IoError) : MetricError :=
  MetricError.mk (ErrorRepr.IoError err)

/-- `impl From<(ErrorKind, &'static str)> for MetricError`
(src/src/types.rs lines 224-230). -/
def MetricError.fromPair (p : ErrorKind × String) : MetricError :=
  MetricError.mk (ErrorRepr.WithDescription p.1 p.2)

/-- `NopMetricSink` from src/cadence/src/sinks/core.rs: a field-less struct. -/
structure NopMetricSink where
  deriving DecidableEq

/-- `NopMetricSink::emit` (src/cadence/src/sinks/core.rs lines 88-92): a
`&self` method; modelled as state passing, it returns `Ok(0)` and the sink
unchanged. -/
def NopMetricSink.emit (s : NopMetricSink) (_metric : String) :
    Except IoError Nat × NopMetricSink :=
  (Except.ok 0, s)

/-- Default `MetricSink::flush` (src/cadence/src/sinks/core.rs lines 77-79):
does nothing and returns `Ok(())`. -/
def MetricSink.defaultFlush : Except IoError Unit :=
  Except.ok ()

/-- `NopMetricSink` does not override `flush`, so it uses the trait default;
modelled as state passing on the (field-less) sink. -/
def NopMetricSink.flush (s : NopMetricSink) :
    Except IoError Unit × NopMetricSink :=
  (MetricSink.defaultFlush, s)

/-- A string is a canonical counter wire line when it decomposes as
prefix ++ "." ++ key ++ ":" ++ value ++ "|" ++ "c". -/
def isCounterLine (s : String) : Prop :=
  ∃ p k v, s = p ++ "." ++ k ++ ":" ++ v ++ "|" ++ "c"

/-- Modelled from the spec: the queuing sink (spec section 4.4) is not under
src/ (only the example src/cadence/examples/production-sink.rs constructs
one).  It owns a bounded first-in-first-out queue; `emit` pushes onto the
queue when below capacity and, per the spec's mandated reject policy,
returns an IoError-kind failure when the queue is at capacity, leaving the
queue unchanged. -/
structure QueuingMetricSink where
  queue : List String
  capacity : Nat
  deriving DecidableEq

/-- Modelled from the spec: `QueuingMetricSink::emit` returns `Ok(0)` on a
successful enqueue and an IoError-kind failure when the queue is full. -/
def QueuingMetricSink.emit (s : QueuingMetricSink) (line : String) :
    Except MetricError Nat × QueuingMetricSink :=
  if s.queue.length < s.capacity then
    (Except.ok 0, QueuingMetricSink.mk (s.queue ++ [line]) s.capacity)
  else
    (Except.error (MetricError.fromPair (ErrorKind.IoError, "queue full")), s)

theorem counterLine_has_pipe (s : String) (h : isCounterLine s) :
    '|' ∈ s.data := by
  obtain ⟨p, k, v, rfl⟩ := h
  simp [String.data_append]

/-- C1: for every (prefix, key, value), each metric constructor produces the
canonical line "prefix.key:value|suffix" with the kind's wire suffix, and in
particular the spec's two concrete examples hold. -/
theorem metric_new_canonical_format :
    (∀ (pre key : String) (c : Int),
      (Counter.new pre key c).as_metric_str =
        pre ++ "." ++ key ++ ":" ++ toString c ++ "|" ++ "c")
    ∧ (∀ (pre key : String) (t : Nat),
      (Timer.new pre key t).as_metric_str =
        pre ++ "." ++ key ++ ":" ++ toString t ++ "|" ++ "ms")
    ∧ (∀ (pre key : String) (v : Nat),
      (Gauge.new pre key v).as_metric_str =
        pre ++ "." ++ key ++ ":" ++ toString v ++ "|" ++ "g")
    ∧ (∀ (pre key : String) (v : Nat),
      (Meter.new pre key v).as_metric_str =
        pre ++ "." ++ key ++ ":" ++ toString v ++ "|" ++ "m")
    ∧ (∀ (pre key : String) (v : Nat),
      (Histogram.new pre key v).as_metric_str =
        pre ++ "." ++ key ++ ":" ++ toString v ++ "|" ++ "h")
    ∧ (Counter.new "my.app" "test.counter" 4).as_metric_str =
        "my.app.test.counter:4|c"
    ∧ (Timer.new "my.app" "test.timer" 34).as_metric_str =
        "my.app.test.timer:34|ms" := by
  refine ⟨fun _ _ _ => rfl, fun _ _ _ => rfl, fun _ _ _ => rfl,
    fun _ _ _ => rfl, fun _ _ _ => rfl, ?_, ?_⟩ <;> decide

/-- C2: for every input string (including the empty string),
`NopMetricSink::emit` returns `Ok(0)` and leaves the sink unchanged (the
field-less sink has no state to change). -/
theorem nop_sink_emit_ok_zero :
    ∀ (s : NopMetricSink) (line : String),
      NopMetricSink.emit s line = (Except.ok 0, s) :=
  fun _ _ => rfl

/-- C3: constructing a `MetricError` from an `io::Error` yields kind
`IoError` with the original description; constructing from
`(InvalidInput, desc)` yields kind `InvalidInput` with exactly `desc`. -/
theorem metric_error_construction_kind_description :
    (∀ e : IoError,
      (MetricError.fromIoError e).kind = ErrorKind.IoError
      ∧ (MetricError.fromIoError e).description = e.description)
    ∧ (∀ desc : String,
      (MetricError.fromPair (ErrorKind.InvalidInput, desc)).kind =
        ErrorKind.InvalidInput
      ∧ (MetricError.fromPair (ErrorKind.InvalidInput, desc)).description =
        desc) :=
  ⟨fun _ => ⟨rfl, rfl⟩, fun _ => ⟨rfl, rfl⟩⟩

/-- C4: the description of a wrapped `io::Error` is retrievable unchanged
through the `MetricError`, via both `description()` and `Display`
formatting; an error built from a `(kind, description)` pair returns that
description unchanged. -/
theorem metric_error_description_preserved :
    (∀ e : IoError,
      (MetricError.fromIoError e).description = e.description
      ∧ (MetricError.fromIoError e).displayFmt = e.displayFmt)
    ∧ (∀ (k : ErrorKind) (desc : String),
      (MetricError.fromPair (k, desc)).description = desc
      ∧ (MetricError.fromPair (k, desc)).displayFmt = desc) :=
  ⟨fun _ => ⟨rfl, rfl⟩, fun _ _ => ⟨rfl, rfl⟩⟩

/-- C5 counterexample: the claim that no metric value with a non-canonical
representation can be obtained from the construction operations is false:
`Counter::from(String)` embeds the string "boom" verbatim, and "boom" is not
a canonical counter line (it contains no pipe character), while the
conversion signalled no failure. -/
theorem counter_from_string_no_validation_counterexample :
    (Counter.fromString "boom").as_metric_str = "boom"
    ∧ ¬ isCounterLine "boom" := by
  refine ⟨rfl, fun h => ?_⟩
  have hp : '|' ∈ "boom".data := counterLine_has_pipe "boom" h
  simp at hp

/-- C5 amended: metric construction never signals failure (there is no error
channel at all): `Counter::new` is total and always yields a canonical
counter line from its arguments, while `From<String>` performs no
validation, so a representation violating the canonical template is
obtainable. -/
theorem counter_construction_infallible_unvalidated :
    (∀ (pre key : String) (c : Int),
      isCounterLine (Counter.new pre key c).as_metric_str)
    ∧ ¬ (∀ s : String, isCounterLine (Counter.fromString s).as_metric_str) := by
  constructor
  · intro pre key c
    exact ⟨pre, key, toString c, rfl⟩
  · intro h
    have hp : '|' ∈ "boom".data :=
      counterLine_has_pipe "boom" (h "boom")
    simp at hp

/-- C6: for a sink that does not define its own `flush` — in particular
`NopMetricSink` — `flush` is the trait default: a no-op returning `Ok(())`
that changes no state. -/
theorem default_flush_noop_ok :
    MetricSink.defaultFlush = Except.ok ()
    ∧ ∀ s : NopMetricSink, NopMetricSink.flush s = (Except.ok (), s) :=
  ⟨rfl, fun _ => rfl⟩

/-- C7: `MetricError::kind()` is a pure accessor: calling it leaves the
error unchanged, and a repeated call on the returned receiver yields the
same `ErrorKind`. -/
theorem metric_error_kind_pure :
    ∀ e : MetricError,
      (MetricError.kindCall e).2 = e
      ∧ (MetricError.kindCall (MetricError.kindCall e).2).1 =
          (MetricError.kindCall e).1 :=
  fun _ => ⟨rfl, rfl⟩

/-- C8: when the queuing sink's bounded queue is at capacity, `emit` returns
an IoError-kind failure to the caller and leaves the queue unchanged: the
line is rejected with an observable error, not dropped silently, and the
call returns immediately rather than blocking. -/
theorem queuing_sink_emit_full_rejects (s : QueuingMetricSink) (line : String)
    (h : s.capacity ≤ s.queue.length) :
    ∃ e : MetricError,
      QueuingMetricSink.emit s line = (Except.error e, s)
      ∧ e.kind = ErrorKind.IoError := by
  refine ⟨MetricError.fromPair (ErrorKind.IoError, "queue full"), ?_, rfl⟩
  unfold QueuingMetricSink.emit
  rw [if_neg (Nat.not_lt.mpr h)]

/-- C8 witness: a queue of capacity 1 holding one line rejects the next
emit with an IoError-kind failure. -/
theorem queuing_sink_emit_full_rejects_witness :
    ∃ e : MetricError,
      QueuingMetricSink.emit (QueuingMetricSink.mk ["a"] 1) "b" =
        (Except.error e, QueuingMetricSink.mk ["a"] 1)
      ∧ e.kind = ErrorKind.IoError :=
  queuing_sink_emit_full_rejects (QueuingMetricSink.mk ["a"] 1) "b"
    (by decide)

/-- C9: for every string, each metric type's `From<String>` conversion
followed by `as_metric_str` is the identity: any string, validated or not,
becomes the metric's wire representation unchanged. -/
theorem from_string_as_metric_str_identity :
    ∀ s : String,
      (Counter.fromString s).as_metric_str = s
      ∧ (Timer.fromString s).as_metric_str = s
      ∧ (Gauge.fromString s).as_metric_str = s
      ∧ (Meter.fromString s).as_metric_str = s
      ∧ (Histogram.fromString s).as_metric_str = s :=
  fun _ => ⟨rfl, rfl, rfl, rfl, rfl⟩

/-- C10: `cause()` returns `Some` exactly for errors constructed from an
`io::Error`, and that cause is the wrapped error; every error built from a
`(kind, description)` pair — including kind `IoError` — has no cause, so an
error's kind is observable independently of whether it carries a nested
cause. -/
theorem metric_error_cause_iff_io :
    (∀ err : IoError, (MetricError.fromIoError err).cause = some err)
    ∧ (∀ (k : ErrorKind) (desc : String),
        (MetricError.fromPair (k, desc)).cause = none)
    ∧ (∀ desc : String,
        (MetricError.fromPair (ErrorKind.IoError, desc)).kind =
          ErrorKind.IoError
        ∧ (MetricError.fromPair (ErrorKind.IoError, desc)).cause = none) :=
  ⟨fun _ => rfl, fun _ _ => rfl, fun _ => ⟨rfl, rfl⟩⟩
